import Mathlib

/-!
Verification development for the home-weather integration.

Shallow embedding of the TTS trigger and dispatch core:
- custom_components/home_weather/const.py (NUMBER_WORDS)
- custom_components/home_weather/tts_notifications.py
  (_spell_number, send_tts, send_tts_with_ai_rewrite)
- custom_components/home_weather/tts_triggers.py
  (TTSTriggerManager: async_setup, async_unload, _setup_time_based_trigger,
   _setup_current_change_trigger, _check_upcoming_precip)

Machine integers are modelled as Nat/Int (Python ints are unbounded), wall
clock datetimes as integer minute counts with an explicit awareness flag
(Python aware vs naive datetimes, whose comparison raises TypeError),
stateful callbacks as explicit state-passing step functions, and the
side-effecting dispatch as a function producing an ordered event trace.
-/

namespace HomeWeather

/-! ### Python string primitives -/

/-- Python whitespace characters stripped by str.strip()
(ASCII subset: space, tab, newline, carriage return, vertical tab, form feed). -/
def pySpace (c : Char) : Bool :=
  c = ' ' || c = '\t' || c = '\n' || c = '\r' || c = Char.ofNat 11 || c = Char.ofNat 12

/-- Python str.strip(): remove leading and trailing whitespace. -/
def pyStrip (s : String) : String :=
  String.mk (((s.data.dropWhile pySpace).reverse.dropWhile pySpace).reverse)

/-- Boolean sublist-contiguous containment on character lists. -/
def subListOf (needle : List Char) : List Char → Bool
  | [] => needle.isEmpty
  | c :: rest => List.isPrefixOf needle (c :: rest) || subListOf needle rest

/-- Python substring containment: needle in haystack. -/
def pyIn (needle hay : String) : Bool :=
  subListOf needle.data hay.data

/-- Python str.lower() on the ASCII range. -/
def pyLowerChar (c : Char) : Char :=
  if 'A' ≤ c ∧ c ≤ 'Z' then Char.ofNat (c.toNat + 32) else c

def pyLower (s : String) : String :=
  String.mk (s.data.map pyLowerChar)

/-! ### const.py NUMBER_WORDS and tts_notifications._spell_number -/

/-- The NUMBER_WORDS dict from const.py, as a partial map on keys
0..20, 30, 40, 50, 60, 70, 80, 90, 100. -/
def NUMBER_WORDS : Nat → Option String
  | 0 => some "zero"
  | 1 => some "one"
  | 2 => some "two"
  | 3 => some "three"
  | 4 => some "four"
  | 5 => some "five"
  | 6 => some "six"
  | 7 => some "seven"
  | 8 => some "eight"
  | 9 => some "nine"
  | 10 => some "ten"
  | 11 => some "eleven"
  | 12 => some "twelve"
  | 13 => some "thirteen"
  | 14 => some "fourteen"
  | 15 => some "fifteen"
  | 16 => some "sixteen"
  | 17 => some "seventeen"
  | 18 => some "eighteen"
  | 19 => some "nineteen"
  | 20 => some "twenty"
  | 30 => some "thirty"
  | 40 => some "forty"
  | 50 => some "fifty"
  | 60 => some "sixty"
  | 70 => some "seventy"
  | 80 => some "eighty"
  | 90 => some "ninety"
  | 100 => some "one hundred"
  | _ => none

/-- The branch of _spell_number taken for its recursive call
_spell_number(remainder), where remainder is always in 1..99:
on such arguments the source returns the table entry when present,
else the tens/ones composition.  spell_rem_agrees below certifies that
this inlining coincides with spell_number on all arguments below 100. -/
def spell_rem (n : Nat) : String :=
  if (NUMBER_WORDS n).isSome then (NUMBER_WORDS n).getD ""
  else
    if n % 10 = 0 then (NUMBER_WORDS (n / 10 * 10)).getD (toString n)
    else (NUMBER_WORDS (n / 10 * 10)).getD (toString (n / 10 * 10)) ++ " " ++
      (NUMBER_WORDS (n % 10)).getD (toString (n % 10))

/-- tts_notifications._spell_number restricted to non-negative integers
(the claim quantifies over non-negative n; the source additionally rounds
floats and prefixes "negative" for negative inputs, which we embed
separately in spell_number_int below). -/
def spell_number (n : Nat) : String :=
  if (NUMBER_WORDS n).isSome then (NUMBER_WORDS n).getD ""
  else if n < 100 then
    if n % 10 = 0 then (NUMBER_WORDS (n / 10 * 10)).getD (toString n)
    else (NUMBER_WORDS (n / 10 * 10)).getD (toString (n / 10 * 10)) ++ " " ++
      (NUMBER_WORDS (n % 10)).getD (toString (n % 10))
  else if n = 100 then "one hundred"
  else if n < 1000 then
    if n % 100 = 0 then (NUMBER_WORDS (n / 100)).getD (toString (n / 100)) ++ " hundred"
    else (NUMBER_WORDS (n / 100)).getD (toString (n / 100)) ++ " hundred " ++
      spell_rem (n % 100)
  else toString n

/-- The negative branch of tts_notifications._spell_number. -/
def spell_number_int (n : Int) : String :=
  if n < 0 then "negative " ++ spell_number n.natAbs else spell_number n.toNat

/-- The full expected word table for 0..100, written out independently from
the spec examples (tens/ones composition for entries absent from the dict). -/
def expectedWords : List String :=
  ["zero", "one", "two", "three", "four", "five", "six", "seven", "eight",
   "nine", "ten", "eleven", "twelve", "thirteen", "fourteen", "fifteen",
   "sixteen", "seventeen", "eighteen", "nineteen", "twenty", "twenty one",
   "twenty two", "twenty three", "twenty four", "twenty five", "twenty six",
   "twenty seven", "twenty eight", "twenty nine", "thirty", "thirty one",
   "thirty two", "thirty three", "thirty four", "thirty five", "thirty six",
   "thirty seven", "thirty eight", "thirty nine", "forty", "forty one",
   "forty two", "forty three", "forty four", "forty five", "forty six",
   "forty seven", "forty eight", "forty nine", "fifty", "fifty one",
   "fifty two", "fifty three", "fifty four", "fifty five", "fifty six",
   "fifty seven", "fifty eight", "fifty nine", "sixty", "sixty one",
   "sixty two", "sixty three", "sixty four", "sixty five", "sixty six",
   "sixty seven", "sixty eight", "sixty nine", "seventy", "seventy one",
   "seventy two", "seventy three", "seventy four", "seventy five",
   "seventy six", "seventy seven", "seventy eight", "seventy nine",
   "eighty", "eighty one", "eighty two", "eighty three", "eighty four",
   "eighty five", "eighty six", "eighty seven", "eighty eight",
   "eighty nine", "ninety", "ninety one", "ninety two", "ninety three",
   "ninety four", "ninety five", "ninety six", "ninety seven",
   "ninety eight", "ninety nine", "one hundred"]

/-- Python range(0, stop, step) for positive step, via fuel-bounded
iteration (fuel = stop suffices for step >= 1). -/
def pyRangeGo (step stop : Nat) : Nat → Nat → List Nat
  | 0, _ => []
  | fuel + 1, cur => if cur < stop then cur :: pyRangeGo step stop fuel (cur + step) else []

def pyRange (stop step : Nat) : List Nat :=
  pyRangeGo step stop stop 0

/-- The body of _check_and_fire: weekday filter, inclusive minute window,
hour-pattern filter. -/
def check_and_fire (allowedDays : List Nat) (startH startM endH endM : Nat)
    (triggerHours : List Nat) (weekday hour minute : Nat) : Bool :=
  if !(allowedDays.contains weekday) then false
  else if !(decide (startH * 60 + startM ≤ hour * 60 + minute)
            && decide (hour * 60 + minute ≤ endH * 60 + endM)) then false
  else triggerHours.contains hour

/-- The armed time-based trigger: the scheduler gate (minute equals the
configured offset) conjoined with the callback body, with
trigger_hours = list(range(0, 24, hour_pattern)) if hour_pattern > 0 else []. -/
def timeBasedFires (allowedDays : List Nat) (startH startM endH endM : Nat)
    (hourPattern minuteOffset : Nat) (weekday hour minute : Nat) : Bool :=
  (minute == minuteOffset) &&
    check_and_fire allowedDays startH startM endH endM
      (if 0 < hourPattern then pyRange 24 hourPattern else [])
      weekday hour minute

inductive ChangeAction where
  | setLast (cond : String)
  | fireChange (oldCond newCond : String)
deriving DecidableEq

/-- One invocation of _state_changed: given the stored _last_condition and
the event's old/new states, return the ordered actions performed and the
new _last_condition. -/
def current_change_step (last : Option String) (oldState newState : Option String) :
    List ChangeAction × Option String :=
  match oldState, newState with
  | some oldCond, some newCond =>
    if oldCond ≠ newCond ∧ last ≠ some newCond then
      ([ChangeAction.setLast newCond, ChangeAction.fireChange oldCond newCond], some newCond)
    else ([], last)
  | _, _ => ([], last)

structure MediaPlayer where
  entity_id : String := ""
  tts_entity_id : String := ""
  volume : Option ℚ := none
  preroll_ms : Option ℚ := none
  cache : Option Bool := none
  language : String := ""
  options : List (String × String) := []

inductive TTSEvent where
  | volumeSet (entity : String) (level : ℚ) (ok : Bool)
  | sleepSecs (secs : ℚ)
  | speak (target entity message : String) (cache : Bool)
      (language : Option String) (withOptions : Bool) (ok : Bool)
  | interDelay
deriving DecidableEq

/-- The language field of the speak service data: included only when the
stored language is a non-blank string, with surrounding whitespace
stripped. -/
def resolvedLanguage (mp : MediaPlayer) : Option String :=
  if !mp.language.isEmpty && !(pyStrip mp.language).isEmpty
  then some (pyStrip mp.language) else none

/-- The events of one iteration of the send_tts loop for the sink at
enumerate position i of a list of the given total length.  A sink with a
falsy entity_id or tts_entity_id is skipped entirely. -/
def sinkBlock (total : Nat) (volOk speakOk : Nat → Bool) (message : String)
    (vo : Option ℚ) (i : Nat) (mp : MediaPlayer) : List TTSEvent :=
  if mp.entity_id.isEmpty then []
  else if mp.tts_entity_id.isEmpty then []
  else
    let volume : ℚ := match vo with
      | some v => v
      | none => mp.volume.getD (3 / 5)
    let preroll : ℚ := mp.preroll_ms.getD 150
    [TTSEvent.volumeSet mp.entity_id volume (volOk i)]
    ++ (if 0 < preroll then [TTSEvent.sleepSecs (preroll / 1000)] else [])
    ++ [TTSEvent.speak mp.tts_entity_id mp.entity_id message (mp.cache.getD false)
          (resolvedLanguage mp) (!mp.options.isEmpty) (speakOk i)]
    ++ (if speakOk i && decide (i < total - 1) then [TTSEvent.interDelay] else [])

/-- The enumerate loop of send_tts. -/
def send_tts_go (total : Nat) (volOk speakOk : Nat → Bool) (message : String)
    (vo : Option ℚ) : Nat → List MediaPlayer → List TTSEvent
  | _, [] => []
  | i, mp :: rest =>
    (if mp.entity_id.isEmpty then []
     else if mp.tts_entity_id.isEmpty then []
     else
       let volume : ℚ := match vo with
         | some v => v
         | none => mp.volume.getD (3 / 5)
       let preroll : ℚ := mp.preroll_ms.getD 150
       [TTSEvent.volumeSet mp.entity_id volume (volOk i)]
       ++ (if 0 < preroll then [TTSEvent.sleepSecs (preroll / 1000)] else [])
       ++ [TTSEvent.speak mp.tts_entity_id mp.entity_id message (mp.cache.getD false)
             (resolvedLanguage mp) (!mp.options.isEmpty) (speakOk i)]
       ++ (if speakOk i && decide (i < total - 1) then [TTSEvent.interDelay] else []))
    ++ send_tts_go total volOk speakOk message vo (i + 1) rest

/-- tts_notifications.send_tts: guards for an empty sink list and an
empty/whitespace-only message, then the per-sink delivery loop. -/
def send_tts (mps : List MediaPlayer) (message : String) (vo : Option ℚ)
    (volOk speakOk : Nat → Bool) : List TTSEvent :=
  if mps.isEmpty then []
  else if message.isEmpty || (pyStrip message).isEmpty then []
  else send_tts_go mps.length volOk speakOk message vo 0 mps

def defaultMP : MediaPlayer := {}

def isSpeakEvent : TTSEvent → Bool
  | TTSEvent.speak _ _ _ _ _ _ _ => true
  | _ => false

/-- C2 counterexample input: three valid sinks, the speak call of the sink
at position 1 raises, volume calls all succeed. -/
def mpKitchen : MediaPlayer :=
  { entity_id := "media_player.kitchen", tts_entity_id := "tts.cloud",
    volume := some (1 / 2), preroll_ms := some 150 }

def mpOffice : MediaPlayer :=
  { entity_id := "media_player.office", tts_entity_id := "tts.cloud",
    volume := some (7 / 10), preroll_ms := some 150 }

def mpBedroom : MediaPlayer :=
  { entity_id := "media_player.bedroom", tts_entity_id := "tts.cloud",
    volume := some (3 / 10), preroll_ms := some 150 }

inductive PyVal where
  | pstr (s : String)
  | pnone
  | pother (truthy : Bool)
deriving DecidableEq

def pyTruthy : PyVal → Bool
  | PyVal.pstr s => !s.isEmpty
  | PyVal.pnone => false
  | PyVal.pother b => b

/-- Python: a or b. -/
def pyOr (a b : PyVal) : PyVal :=
  if pyTruthy a then a else b

structure AIDict where
  output : Option PyVal := none
  text : Option PyVal := none
  result : Option PyVal := none
deriving DecidableEq

/-- Outcome of the ai_task.generate_data service call. -/
inductive AICallOutcome where
  | raised
  | returnedOther
  | returnedDict (d : AIDict)
deriving DecidableEq

structure AIConfig where
  use_ai_rewrite : Bool := false
  ai_task_entity : String := ""
  ai_rewrite_prompt : String := ""

/-- dict.get(key) with missing keys yielding None. -/
def dictGet (o : Option PyVal) : PyVal :=
  o.getD PyVal.pnone

/-- rewritten = result.get("output") or result.get("text") or result.get("result"). -/
def rewrittenOf (d : AIDict) : PyVal :=
  pyOr (dictGet d.output) (pyOr (dictGet d.text) (dictGet d.result))

/-- The message actually delivered by send_tts_with_ai_rewrite. -/
def finalMessage (cfg : AIConfig) (outcome : AICallOutcome) (message : String) : String :=
  if cfg.use_ai_rewrite && !cfg.ai_task_entity.isEmpty then
    match outcome with
    | AICallOutcome.raised => message
    | AICallOutcome.returnedOther => message
    | AICallOutcome.returnedDict d =>
      match rewrittenOf d with
      | PyVal.pstr s => if !s.isEmpty then s else message
      | _ => message
  else message

/-- tts_notifications.send_tts_with_ai_rewrite: best-effort rewrite, then
unconditional dispatch of the resulting message. -/
def send_tts_with_ai_rewrite (cfg : AIConfig) (outcome : AICallOutcome)
    (mps : List MediaPlayer) (message : String) (vo : Option ℚ)
    (volOk speakOk : Nat → Bool) : List TTSEvent :=
  send_tts mps (finalMessage cfg outcome message) vo volOk speakOk

/-- The claim's words, literally: the first PRESENT of the response fields
output, text, result (regardless of the value stored there). -/
def specFirstPresent (d : AIDict) : Option PyVal :=
  match d.output with
  | some v => some v
  | none =>
    match d.text with
    | some v => some v
    | none => d.result

inductive TriggerKind where
  | timeBased
  | currentChange
  | upcomingChange
  | sensorTriggered
  | webhook
  | voiceSatellite
deriving DecidableEq

structure TTSFlags where
  enabled : Bool := false
  enable_time_based : Bool := false
  enable_current_change : Bool := false
  enable_upcoming_change : Bool := false
  enable_sensor_triggered : Bool := false
  enable_webhook : Bool := false
  enable_voice_satellite : Bool := false

/-- Sequentially arm the flagged kinds; an error from one arming aborts the
sequence (no catch in async_setup), leaving later kinds unarmed. -/
def armKinds (arm : TriggerKind → Except String Unit) :
    List (Bool × TriggerKind) → List TriggerKind × Option String
  | [] => ([], none)
  | (flag, k) :: rest =>
    if flag then
      match arm k with
      | Except.ok _ =>
        let r := armKinds arm rest
        (k :: r.1, r.2)
      | Except.error msg => ([], some msg)
    else armKinds arm rest

def enabledOrder (f : TTSFlags) : List (Bool × TriggerKind) :=
  [(f.enable_time_based, TriggerKind.timeBased),
   (f.enable_current_change, TriggerKind.currentChange),
   (f.enable_upcoming_change, TriggerKind.upcomingChange),
   (f.enable_sensor_triggered, TriggerKind.sensorTriggered),
   (f.enable_webhook, TriggerKind.webhook),
   (f.enable_voice_satellite, TriggerKind.voiceSatellite)]

/-- tts_triggers.TTSTriggerManager.async_setup: returns the kinds armed and
the propagated exception, if any. -/
def async_setup (f : TTSFlags) (arm : TriggerKind → Except String Unit) :
    List TriggerKind × Option String :=
  if !f.enabled then ([], none)
  else armKinds arm (enabledOrder f)

def allOnFlags : TTSFlags :=
  { enabled := true, enable_time_based := true, enable_current_change := true,
    enable_upcoming_change := true, enable_sensor_triggered := true,
    enable_webhook := true, enable_voice_satellite := true }

/-- An arming oracle where arming the time-based kind raises (e.g. a
minute_offset outside 0..59 makes async_track_time_change raise) and every
other kind would arm fine. -/
def armBoom : TriggerKind → Except String Unit :=
  fun k => if k = TriggerKind.timeBased then Except.error "boom" else Except.ok ()

/-- An arming oracle where arming the current-change kind - second in the
fixed arming order - raises, and every other kind would arm fine. -/
def armBoomMid : TriggerKind → Except String Unit :=
  fun k => if k = TriggerKind.currentChange then Except.error "boom" else Except.ok ()

structure TriggerHandles where
  unsubs : List (Nat × Bool) := []
  webhooks : List (String × Bool) := []
deriving DecidableEq

inductive UnloadEvent where
  | released (h : Nat)
  | releaseFailed (h : Nat)
  | unregistered (id : String)
  | unregisterFailed (id : String)
deriving DecidableEq

/-- The first loop of async_unload: each unsub callback is invoked exactly
once; a raising callback is caught and logged. -/
def releaseAll : List (Nat × Bool) → List UnloadEvent
  | [] => []
  | (h, raises) :: rest =>
    (if raises then UnloadEvent.releaseFailed h else UnloadEvent.released h)
      :: releaseAll rest

/-- The second loop of async_unload over registered webhook ids. -/
def unregisterAll : List (String × Bool) → List UnloadEvent
  | [] => []
  | (id, raises) :: rest =>
    (if raises then UnloadEvent.unregisterFailed id else UnloadEvent.unregistered id)
      :: unregisterAll rest

/-- tts_triggers.TTSTriggerManager.async_unload: emit the release events in
order and clear both lists. -/
def async_unload (s : TriggerHandles) : List UnloadEvent × TriggerHandles :=
  (releaseAll s.unsubs ++ unregisterAll s.webhooks, {})

structure PyDateTime where
  minutes : Int
  aware : Bool
deriving DecidableEq

/-- Python datetime a < b: raises TypeError on mixed aware/naive operands. -/
def pyLtDT (a b : PyDateTime) : Except Unit Bool :=
  if a.aware = b.aware then Except.ok (decide (a.minutes < b.minutes))
  else Except.error ()

/-- Python datetime a <= b. -/
def pyLeDT (a b : PyDateTime) : Except Unit Bool :=
  if a.aware = b.aware then Except.ok (decide (a.minutes ≤ b.minutes))
  else Except.error ()

/-- Python datetime a > b. -/
def pyGtDT (a b : PyDateTime) : Except Unit Bool :=
  if a.aware = b.aware then Except.ok (decide (b.minutes < a.minutes))
  else Except.error ()

structure HourEntry where
  precipitation_probability : Option Int := none
  dt : Option PyDateTime := none
  precipitation_kind : Option String := none
  condition : Option String := none

/-- alert_key = h_time.strftime("%Y-%m-%d-%H") as a wall-hour index. -/
def entryKey (t : PyDateTime) : Int :=
  Int.fdiv t.minutes 60

def keyOf (e : HourEntry) : Int :=
  match e.dt with
  | some t => entryKey t
  | none => 0

/-- precip_kind = h.get("precipitation_kind") or h.get("condition", "precipitation"). -/
def precipKindOf (e : HourEntry) : String :=
  match e.precipitation_kind with
  | some s => if s.isEmpty then e.condition.getD "precipitation" else s
  | none => e.condition.getD "precipitation"

inductive PrecipEvent where
  | announce (kind : String) (minutesUntil : Int) (prob : Int)
deriving DecidableEq

structure PrecipResult where
  events : List PrecipEvent
  fired : List Int
  typeErr : Bool
deriving DecidableEq

/-- The scan loop of _check_upcoming_precip: entries below the probability
threshold or without a parseable datetime are skipped; the chained
comparison now < h_time <= alert_window evaluates left to right and a
TypeError aborts the whole coroutine (events produced so far stand, the
fired set keeps its current value); an already-fired key is skipped
(continue); the first surviving entry fires once, records its key, and
breaks. -/
def precipLoop (now windowEnd : PyDateTime) (threshold : Int) (fired : List Int) :
    List HourEntry → List PrecipEvent × List Int × Bool
  | [] => ([], fired, false)
  | e :: rest =>
    if e.precipitation_probability.getD 0 < threshold then
      precipLoop now windowEnd threshold fired rest
    else
      match e.dt with
      | none => precipLoop now windowEnd threshold fired rest
      | some t =>
        match pyLtDT now t with
        | Except.error _ => ([], fired, true)
        | Except.ok false => precipLoop now windowEnd threshold fired rest
        | Except.ok true =>
          match pyLeDT t windowEnd with
          | Except.error _ => ([], fired, true)
          | Except.ok false => precipLoop now windowEnd threshold fired rest
          | Except.ok true =>
            if fired.contains (entryKey t) then
              precipLoop now windowEnd threshold fired rest
            else
              ([PrecipEvent.announce (precipKindOf e) (t.minutes - now.minutes)
                  (e.precipitation_probability.getD 0)],
               entryKey t :: fired, false)

def precipWords : List String := ["rain", "snow", "sleet", "drizzle", "thunder"]

structure CurrentState where
  condition : Option String := none
  state : Option String := none

/-- (current.get("condition") or current.get("state", "")).lower(). -/
def effectiveCondition (c : CurrentState) : String :=
  pyLower (match c.condition with
    | some s => if s.isEmpty then c.state.getD "" else s
    | none => c.state.getD "")

def isPrecipitating (c : CurrentState) : Bool :=
  precipWords.any (fun w => pyIn w (effectiveCondition c))

/-- The cleanup step: the set comprehension evaluates
datetime.strptime(k, "%Y-%m-%d-%H") > two_hours_ago for every key; the
strptime result is naive while two_hours_ago is aware, so the first
evaluated comparison raises TypeError and the assignment never happens. -/
def pruneFired (now : PyDateTime) (fired : List Int) : Except Unit (List Int) :=
  fired.foldr
    (fun k acc =>
      match acc with
      | Except.error e => Except.error e
      | Except.ok kept =>
        match pyGtDT { minutes := k * 60, aware := false }
            { minutes := now.minutes - 120, aware := now.aware } with
        | Except.error e => Except.error e
        | Except.ok b => Except.ok (if b then k :: kept else kept))
    (Except.ok [])

/-- tts_triggers.TTSTriggerManager._check_upcoming_precip: early returns
for no media players and for an already-precipitating current condition,
then the scan loop, then the cleanup of keys older than two hours. -/
def check_upcoming_precip (mps : List MediaPlayer) (cur : CurrentState)
    (hourly : List HourEntry) (nowMinutes minutesBefore threshold : Int)
    (fired : List Int) : PrecipResult :=
  if mps.isEmpty then { events := [], fired := fired, typeErr := false }
  else if isPrecipitating cur then { events := [], fired := fired, typeErr := false }
  else
    match precipLoop { minutes := nowMinutes, aware := true }
        { minutes := nowMinutes + minutesBefore, aware := true } threshold fired hourly with
    | (evs, fired2, true) => { events := evs, fired := fired2, typeErr := true }
    | (evs, fired2, false) =>
      match pruneFired { minutes := nowMinutes, aware := true } fired2 with
      | Except.ok kept => { events := evs, fired := kept, typeErr := false }
      | Except.error _ => { events := evs, fired := fired2, typeErr := true }

/-- The firing condition of one forecast entry: probability at least the
threshold, parseable time strictly inside (now, now + minutes_before], and
dedup key not yet fired. -/
def entryMatches (nowM mb th : Int) (fired : List Int) (e : HourEntry) : Bool :=
  decide (th ≤ e.precipitation_probability.getD 0) &&
  (match e.dt with
   | none => false
   | some t => decide (nowM < t.minutes) && decide (t.minutes ≤ nowM + mb)
       && !(fired.contains (entryKey t)))

def announceOf (nowM : Int) (e : HourEntry) : PrecipEvent :=
  match e.dt with
  | some t => PrecipEvent.announce (precipKindOf e) (t.minutes - nowM)
      (e.precipitation_probability.getD 0)
  | none => PrecipEvent.announce (precipKindOf e) 0 (e.precipitation_probability.getD 0)

theorem NUMBER_WORDS_gt_100 (n : Nat) (h : 100 < n) : NUMBER_WORDS n = none := by
  unfold NUMBER_WORDS
  split <;> first | rfl | omega

theorem spell_rem_agrees : ∀ n : Nat, n < 100 → spell_rem n = spell_number n := by
  decide

/-- C9: the number-to-words function agrees with the fixed word table on
0..100, composes hundreds plus remainder for 101..999, and returns the
decimal digit string for n >= 1000. -/
theorem c9_spell_number :
    (∀ n : Nat, n < 101 → spell_number n = expectedWords.getD n "")
    ∧ (∀ h : Nat, h < 10 → 1 ≤ h → ∀ r : Nat, r < 100 → 1 ≤ r →
        spell_number (100 * h + r) = spell_number h ++ " hundred " ++ spell_number r)
    ∧ (∀ h : Nat, h < 10 → 2 ≤ h → spell_number (100 * h) = spell_number h ++ " hundred")
    ∧ (∀ n : Nat, 1000 ≤ n → spell_number n = toString n) := by
  refine ⟨by decide, by decide, by decide, ?_⟩
  intro n h
  have hnone : NUMBER_WORDS n = none := NUMBER_WORDS_gt_100 n (by omega)
  unfold spell_number
  rw [hnone]
  simp only [Option.isSome_none, Bool.false_eq_true, if_false]
  rw [if_neg (by omega : ¬ n < 100), if_neg (by omega : ¬ n = 100),
    if_neg (by omega : ¬ n < 1000)]

/-- Witness for C9 at concrete inputs (the spec examples 0, 72, 100, 103). -/
theorem c9_spell_number_witness :
    (0 < 101 ∧ spell_number 0 = expectedWords.getD 0 "")
    ∧ (72 < 101 ∧ spell_number 72 = expectedWords.getD 72 "")
    ∧ (100 < 101 ∧ spell_number 100 = expectedWords.getD 100 "")
    ∧ spell_number 103 = spell_number 1 ++ " hundred " ++ spell_number 3
    ∧ (1000 ≤ 12345 ∧ spell_number 12345 = toString 12345) :=
  ⟨⟨by decide, c9_spell_number.1 0 (by decide)⟩,
   ⟨by decide, c9_spell_number.1 72 (by decide)⟩,
   ⟨by decide, c9_spell_number.1 100 (by decide)⟩,
   c9_spell_number.2.1 1 (by decide) (by decide) 3 (by decide) (by decide),
   ⟨by decide, c9_spell_number.2.2.2 12345 (by decide)⟩⟩

/-! ### tts_triggers._setup_time_based_trigger (claim C1)

The source arms async_track_time_change(minute=minute_offset, second=0),
so the host invokes _check_and_fire exactly at wall-clock ticks whose
minute equals the offset; the callback then filters by weekday, the
inclusive [start, end] minute window, and membership of the hour in
trigger_hours = list(range(0, 24, hour_pattern)). -/

theorem mem_pyRange24 (n h : Nat) (hn : 0 < n) (hh : h < 24) :
    (pyRange 24 n).contains h = (h % n == 0) := by
  by_cases hlt : n < 24
  · have key : ∀ m : Nat, m < 24 → 0 < m → ∀ x : Nat, x < 24 →
        ((pyRange 24 m).contains x = (x % m == 0)) := by decide
    exact key n hlt hn h hh
  · have e1 : pyRange 24 n = 0 :: pyRangeGo n 24 23 (0 + n) := rfl
    have e2 : pyRangeGo n 24 23 (0 + n) =
        if 0 + n < 24 then (0 + n) :: pyRangeGo n 24 22 (0 + n + n) else [] := rfl
    rw [e2, if_neg (by omega)] at e1
    rw [e1]
    have hmod : h % n = h := Nat.mod_eq_of_lt (by omega)
    rw [hmod]
    simp only [List.contains, List.elem]
    cases hz : (h == 0) <;> simp_all

/-- C1: for every configuration (allowed-weekday set, inclusive window,
hour interval N > 0, minute offset M) and every wall-clock tick (hour < 24,
minute < 60), the armed time-based trigger fires iff the weekday is allowed,
the clock time lies within [start, end] inclusive, the hour is divisible by
N, and the minute equals M.  (The special cases noted by the spec follow:
with start = end only the single minute start satisfies the window
inequalities, and with N = 1 the divisibility conjunct is trivially true, so
the trigger fires every hour of the window.) -/
theorem check_and_fire_eq (D : List Nat) (sH sM eH eM : Nat) (ths : List Nat)
    (wd h mi : Nat) :
    check_and_fire D sH sM eH eM ths wd h mi =
      (D.contains wd && (decide (sH * 60 + sM ≤ h * 60 + mi)
        && decide (h * 60 + mi ≤ eH * 60 + eM)) && ths.contains h) := by
  unfold check_and_fire
  cases hd : D.contains wd
  · simp
  · cases h1 : decide (sH * 60 + sM ≤ h * 60 + mi) <;>
      cases h2 : decide (h * 60 + mi ≤ eH * 60 + eM) <;> simp

theorem c1_time_based_trigger (D : List Nat) (sH sM eH eM n m wd h mi : Nat)
    (hn : 0 < n) (hh : h < 24) (hmi : mi < 60) :
    timeBasedFires D sH sM eH eM n m wd h mi = true ↔
      (wd ∈ D ∧ sH * 60 + sM ≤ h * 60 + mi ∧ h * 60 + mi ≤ eH * 60 + eM ∧
        h % n = 0 ∧ mi = m) := by
  unfold timeBasedFires
  rw [if_pos hn, check_and_fire_eq, mem_pyRange24 n h hn hh]
  simp only [Bool.and_eq_true, beq_iff_eq, decide_eq_true_eq, List.elem_iff,
    List.contains]
  tauto

/-- Witness for C1: interval 3, offset 5, window 08:00-21:00, Wednesday (2)
allowed, tick Wednesday 09:05 fires; the hypotheses hold at these inputs. -/
theorem c1_time_based_trigger_witness :
    (0 < 3 ∧ 9 < 24 ∧ 5 < 60) ∧
    (timeBasedFires [2] 8 0 21 0 3 5 2 9 5 = true ↔
      (2 ∈ [2] ∧ 8 * 60 + 0 ≤ 9 * 60 + 5 ∧ 9 * 60 + 5 ≤ 21 * 60 + 0 ∧
        9 % 3 = 0 ∧ 5 = 5)) :=
  ⟨by decide, c1_time_based_trigger [2] 8 0 21 0 3 5 2 9 5 (by decide) (by decide) (by decide)⟩

/-! ### tts_triggers._setup_current_change_trigger (claim C3)

The armed listener _state_changed receives state-change events carrying
old_state and new_state (None modelled as none); the manager holds the
mutable dedup field _last_condition.  The handler first assigns
_last_condition = new_condition, then schedules the announcement task, so
the dedup write precedes the firing in the emitted action list. -/

/-- C3: the current-change trigger fires exactly once (one fireChange
action) for a transition a to b with b different from both the event's old
condition and the stored dedup value, writing b into the dedup state before
firing; it does not fire when the new condition equals the old one or the
dedup value; and for a to b followed by b to a it fires on both events. -/
theorem c3_current_change (last : Option String) (a b : String) :
    (¬ a = b → ¬ last = some b →
      current_change_step last (some a) (some b) =
        ([ChangeAction.setLast b, ChangeAction.fireChange a b], some b))
    ∧ (a = b ∨ last = some b →
      current_change_step last (some a) (some b) = ([], last))
    ∧ (¬ a = b → ¬ last = some b →
      current_change_step (current_change_step last (some a) (some b)).2
          (some b) (some a) =
        ([ChangeAction.setLast a, ChangeAction.fireChange b a], some a)) := by
  refine ⟨?_, ?_, ?_⟩
  · intro h1 h2
    simp [current_change_step, h1, h2]
  · intro h
    rcases h with h | h
    · simp [current_change_step, h]
    · have : ¬ (a ≠ b ∧ last ≠ some b) := by
        intro hc
        exact hc.2 h
      simp only [current_change_step, if_neg this]
  · intro h1 h2
    have hstep : current_change_step last (some a) (some b) =
        ([ChangeAction.setLast b, ChangeAction.fireChange a b], some b) := by
      simp [current_change_step, h1, h2]
    rw [hstep]
    have hba : ¬ b = a := fun hc => h1 hc.symm
    have hlb : ¬ (some b : Option String) = some a := by
      intro hc
      exact hba (Option.some.inj hc)
    simp [current_change_step, hba, hlb]

/-- Witness for C3: dedup value "cloudy", transition "cloudy" to "rainy"
fires once, and the reverse transition fires again. -/
theorem c3_current_change_witness :
    current_change_step (some "cloudy") (some "cloudy") (some "rainy") =
      ([ChangeAction.setLast "rainy", ChangeAction.fireChange "cloudy" "rainy"],
        some "rainy")
    ∧ current_change_step
        (current_change_step (some "cloudy") (some "cloudy") (some "rainy")).2
        (some "rainy") (some "cloudy") =
      ([ChangeAction.setLast "cloudy", ChangeAction.fireChange "rainy" "cloudy"],
        some "cloudy") :=
  ⟨(c3_current_change (some "cloudy") "cloudy" "rainy").1 (by decide) (by decide),
   (c3_current_change (some "cloudy") "cloudy" "rainy").2.2 (by decide) (by decide)⟩

/-! ### tts_notifications.send_tts (claims C2 and C10)

The dispatch loop is embedded as a trace-producing function.  External
capability outcomes are oracles indexed by the enumerate position: volOk i
(speakOk i) tells whether the volume_set (tts.speak) service call for the
sink at position i raises.  A call that raises still appears in the trace
(the call was made); failure only changes control flow.  In the source the
volume_set failure is caught by the inner try so the sink continues, while
a speak failure is caught by the outer try, which skips the trailing
0.5-second inter-sink sleep of that iteration. -/

theorem send_tts_go_blocks (total : Nat) (volOk speakOk : Nat → Bool)
    (message : String) (vo : Option ℚ) :
    ∀ (l : List MediaPlayer) (i : Nat),
      send_tts_go total volOk speakOk message vo i l =
        ((List.range l.length).map
          (fun k => sinkBlock total volOk speakOk message vo (i + k) (l.getD k defaultMP))).flatten := by
  intro l
  induction l with
  | nil => intro i; simp [send_tts_go]
  | cons mp rest ih =>
    intro i
    show (sinkBlock total volOk speakOk message vo i mp)
        ++ send_tts_go total volOk speakOk message vo (i + 1) rest = _
    rw [ih (i + 1)]
    simp only [List.length_cons, List.range_succ_eq_map, List.map_cons, List.map_map,
      List.flatten_cons, Nat.add_zero, List.getD_cons_zero]
    congr 1
    apply congrArg
    apply List.map_congr_left
    intro k _
    simp only [Function.comp_apply, List.getD_cons_succ]
    congr 1
    omega

/-- C2 counterexample: with three sinks and the middle sink's speak call
failing, all three sinks still receive their volume-set and speak calls,
but only ONE inter-sink delay occurs (after the first sink) instead of the
two the claim requires between each consecutive pair: the failing speak
jumps to the outer except handler, skipping that iteration's trailing
0.5-second sleep. -/
theorem c2_counterexample :
    (send_tts [mpKitchen, mpOffice, mpBedroom] "Weather update." none
        (fun _ => true) (fun i => !(i == 1))).countP isSpeakEvent = 3
    ∧ (send_tts [mpKitchen, mpOffice, mpBedroom] "Weather update." none
        (fun _ => true) (fun i => !(i == 1))).count TTSEvent.interDelay = 1
    ∧ ¬ (send_tts [mpKitchen, mpOffice, mpBedroom] "Weather update." none
        (fun _ => true) (fun i => !(i == 1))).count TTSEvent.interDelay = 3 - 1 := by
  refine ⟨by decide, by decide, by decide⟩

/-- C2 amended: the dispatch trace is exactly the concatenation, in
configured order, of per-sink blocks; the block of the sink at position i
depends only on that sink's own configuration and its own call outcomes
(volOk i, speakOk i), so one sink's failure cannot remove another sink's
volume-set or speak call; a sink lacking a resolvable TTS target
contributes the empty block; and the inter-sink delay follows a sink iff
its own speak call succeeded and it is not at the last position.  In
particular every valid sink's speak call (failed or not) occurs in the
trace. -/
theorem c2_send_tts_isolation (mps : List MediaPlayer) (message : String)
    (vo : Option ℚ) (volOk speakOk : Nat → Bool)
    (hne : ¬ mps.isEmpty) (hmsg : ¬ (pyStrip message).isEmpty) :
    send_tts mps message vo volOk speakOk =
      ((List.range mps.length).map
        (fun k => sinkBlock mps.length volOk speakOk message vo k (mps.getD k defaultMP))).flatten
    ∧ (∀ k, k < mps.length →
        ¬ (mps.getD k defaultMP).entity_id.isEmpty →
        ¬ (mps.getD k defaultMP).tts_entity_id.isEmpty →
        TTSEvent.speak (mps.getD k defaultMP).tts_entity_id
            (mps.getD k defaultMP).entity_id message
            ((mps.getD k defaultMP).cache.getD false)
            (resolvedLanguage (mps.getD k defaultMP))
            (!(mps.getD k defaultMP).options.isEmpty) (speakOk k)
          ∈ send_tts mps message vo volOk speakOk) := by
  have hmsg2 : ¬ message.isEmpty := by
    intro hc
    apply hmsg
    have hmeq : message = "" := by
      simpa [String.isEmpty_iff] using hc
    rw [hmeq]
    decide
  have hmain : send_tts mps message vo volOk speakOk =
      ((List.range mps.length).map
        (fun k => sinkBlock mps.length volOk speakOk message vo k (mps.getD k defaultMP))).flatten := by
    unfold send_tts
    rw [if_neg (by simpa using hne)]
    rw [if_neg (by simp [hmsg, hmsg2])]
    have := send_tts_go_blocks mps.length volOk speakOk message vo mps 0
    simpa using this
  refine ⟨hmain, ?_⟩
  intro k hk h1 h2
  rw [hmain]
  apply List.mem_flatten.mpr
  refine ⟨sinkBlock mps.length volOk speakOk message vo k (mps.getD k defaultMP), ?_, ?_⟩
  · apply List.mem_map.mpr
    exact ⟨k, List.mem_range.mpr hk, rfl⟩
  · unfold sinkBlock
    rw [if_neg h1, if_neg h2]
    simp

/-- Witness for C2 (amended): at the counterexample input the hypotheses
hold and the trace decomposes into per-sink blocks with the middle sink's
speak call present despite its failure. -/
theorem c2_send_tts_isolation_witness :
    (¬ ([mpKitchen, mpOffice, mpBedroom] : List MediaPlayer).isEmpty
      ∧ ¬ (pyStrip "Weather update.").isEmpty)
    ∧ TTSEvent.speak (mpOffice.tts_entity_id) (mpOffice.entity_id) "Weather update."
        (mpOffice.cache.getD false) (resolvedLanguage mpOffice)
        (!mpOffice.options.isEmpty) false
      ∈ send_tts [mpKitchen, mpOffice, mpBedroom] "Weather update." none
          (fun _ => true) (fun i => !(i == 1)) :=
  ⟨⟨by decide, by decide⟩, by
    have h := (c2_send_tts_isolation [mpKitchen, mpOffice, mpBedroom]
      "Weather update." none (fun _ => true) (fun i => !(i == 1))
      (by decide) (by decide)).2 1 (by decide) (by decide) (by decide)
    simpa using h⟩

/-- C10: dispatch with an empty sink list, or an empty or whitespace-only
message, performs no external side effect at all: the event trace is empty
(no volume-set, no preroll or inter-sink sleep, no speak). -/
theorem c10_no_effect_on_empty (mps : List MediaPlayer) (message : String)
    (vo : Option ℚ) (volOk speakOk : Nat → Bool)
    (h : mps = [] ∨ pyStrip message = "") :
    send_tts mps message vo volOk speakOk = [] := by
  rcases h with h | h
  · simp [send_tts, h]
  · unfold send_tts
    have : (pyStrip message).isEmpty = true := by
      rw [h]
      decide
    rcases hmp : mps.isEmpty with _ | _
    · rw [if_neg (by simp [hmp]), if_pos (by simp [this])]
    · rw [if_pos (by simp)]

/-- Witness for C10: both hypothesis shapes at concrete inputs. -/
theorem c10_no_effect_on_empty_witness :
    (([] : List MediaPlayer) = [] ∨ pyStrip "Weather update." = "")
    ∧ send_tts [] "Weather update." none (fun _ => true) (fun _ => true) = []
    ∧ (([mpKitchen] : List MediaPlayer) = [] ∨ pyStrip "  " = "")
    ∧ send_tts [mpKitchen] "  " none (fun _ => true) (fun _ => true) = [] :=
  ⟨Or.inl rfl,
   c10_no_effect_on_empty [] "Weather update." none (fun _ => true) (fun _ => true)
     (Or.inl rfl),
   Or.inr (by decide),
   c10_no_effect_on_empty [mpKitchen] "  " none (fun _ => true) (fun _ => true)
     (Or.inr (by decide))⟩

/-! ### tts_notifications.send_tts_with_ai_rewrite (claim C7)

The AI service call is modelled by an abstract outcome: it raises, returns
a falsy or non-dict value, or returns a (truthy) dict whose fields
"output", "text", "result" each hold a Python value or are absent.  The
source computes
  rewritten = result.get("output") or result.get("text") or result.get("result")
(Python or-chains select the first TRUTHY operand) and replaces the message
only when rewritten is a truthy string; every other path keeps the original
message, and send_tts runs afterwards unconditionally. -/

theorem finalMessage_dict (cfg : AIConfig) (d : AIDict) (message : String)
    (hcond : (cfg.use_ai_rewrite && !cfg.ai_task_entity.isEmpty) = true) :
    finalMessage cfg (AICallOutcome.returnedDict d) message =
      (match rewrittenOf d with
       | PyVal.pstr s => if !s.isEmpty then s else message
       | _ => message) := by
  unfold finalMessage
  rw [if_pos hcond]

/-- C7 counterexample: a successful dict response whose "output" field is
present but holds the empty string, with "text" holding "hello".  The
claim as stated replaces the message with the first present field (the
empty string); the code's or-chain skips the falsy empty string and
delivers "hello" instead. -/
theorem c7_counterexample :
    specFirstPresent
        { output := some (PyVal.pstr ""), text := some (PyVal.pstr "hello") }
      = some (PyVal.pstr "")
    ∧ finalMessage { use_ai_rewrite := true, ai_task_entity := "ai_task.gemini" }
        (AICallOutcome.returnedDict
          { output := some (PyVal.pstr ""), text := some (PyVal.pstr "hello") })
        "original forecast"
      = "hello"
    ∧ ¬ ("hello" : String) = "" := by
  refine ⟨rfl, rfl, by decide⟩

/-- C7 amended: when the rewrite flag is on and an AI target entity is
non-empty, the delivered message is the first TRUTHY value of the fields
output, text, result when that value is a non-empty string; on a raised
call, a falsy or non-dict response, or a first-truthy value that is not a
string, the original message is kept.  The rewrite step never prevents the
per-sink delivery: the emitted trace is exactly send_tts applied to the
resolved message, whatever the outcome. -/
theorem c7_ai_rewrite (cfg : AIConfig) (outcome : AICallOutcome)
    (mps : List MediaPlayer) (message : String) (vo : Option ℚ)
    (volOk speakOk : Nat → Bool) :
    (send_tts_with_ai_rewrite cfg outcome mps message vo volOk speakOk =
      send_tts mps (finalMessage cfg outcome message) vo volOk speakOk)
    ∧ (outcome = AICallOutcome.raised → finalMessage cfg outcome message = message)
    ∧ (outcome = AICallOutcome.returnedOther → finalMessage cfg outcome message = message)
    ∧ (cfg.use_ai_rewrite = false ∨ cfg.ai_task_entity = "" →
        finalMessage cfg outcome message = message)
    ∧ (∀ d s, outcome = AICallOutcome.returnedDict d →
        cfg.use_ai_rewrite = true → ¬ cfg.ai_task_entity.isEmpty →
        rewrittenOf d = PyVal.pstr s → ¬ s.isEmpty →
        finalMessage cfg outcome message = s)
    ∧ (∀ d, outcome = AICallOutcome.returnedDict d →
        (∀ s, ¬ rewrittenOf d = PyVal.pstr s ∨ s.isEmpty) →
        finalMessage cfg outcome message = message) := by
  refine ⟨rfl, ?_, ?_, ?_, ?_, ?_⟩
  · intro h
    subst h
    unfold finalMessage
    split <;> rfl
  · intro h
    subst h
    unfold finalMessage
    split <;> rfl
  · intro h
    unfold finalMessage
    rcases h with h | h
    · rw [if_neg (by simp [h])]
    · have he : cfg.ai_task_entity.isEmpty = true := by
        rw [h]
        decide
      rw [if_neg (by simp [he])]
  · intro d s hout huse hent hrw hs
    subst hout
    have hent2 : cfg.ai_task_entity.isEmpty = false := by
      cases hb : cfg.ai_task_entity.isEmpty
      · rfl
      · exact absurd hb hent
    rw [finalMessage_dict cfg d message (by simp [huse, hent2]), hrw]
    simp [hs]
  · intro d hout hno
    subst hout
    by_cases hcond : (cfg.use_ai_rewrite && !cfg.ai_task_entity.isEmpty) = true
    · rw [finalMessage_dict cfg d message hcond]
      rcases hr : rewrittenOf d with s | _ | b
      · rcases hno s with h | h
        · exact absurd hr h
        · simp [h]
      · rfl
      · rfl
    · unfold finalMessage
      rw [if_neg hcond]

/-- Witness for C7 (amended): a raised call keeps the original message and
still dispatches it; a dict response with a truthy "output" string replaces
it. -/
theorem c7_ai_rewrite_witness :
    (finalMessage { use_ai_rewrite := true, ai_task_entity := "ai_task.gemini" }
        AICallOutcome.raised "original forecast" = "original forecast")
    ∧ (finalMessage { use_ai_rewrite := true, ai_task_entity := "ai_task.gemini" }
        (AICallOutcome.returnedDict { output := some (PyVal.pstr "rewritten") })
        "original forecast" = "rewritten") :=
  ⟨(c7_ai_rewrite { use_ai_rewrite := true, ai_task_entity := "ai_task.gemini" }
      AICallOutcome.raised [] "original forecast" none (fun _ => true) (fun _ => true)).2.1
      rfl,
   (c7_ai_rewrite { use_ai_rewrite := true, ai_task_entity := "ai_task.gemini" }
      (AICallOutcome.returnedDict { output := some (PyVal.pstr "rewritten") })
      [] "original forecast" none (fun _ => true) (fun _ => true)).2.2.2.2.1
      { output := some (PyVal.pstr "rewritten") } "rewritten" rfl rfl (by decide)
      (by decide) (by decide)⟩

/-! ### tts_triggers.TTSTriggerManager.async_setup (claim C6)

async_setup awaits the six per-kind setup coroutines in a fixed order,
gated only by the per-kind enable flags.  There is NO try/except around any
of these awaits (only webhook registration and voice-satellite setup catch
internally), so an exception from one per-kind setup propagates out of
async_setup.  Each per-kind arming action is abstracted as an Except value
(for example async_track_time_change raises for an out-of-range
minute_offset, and iterating a malformed days_of_week raises). -/

/-- C6 counterexample: with every trigger kind enabled and the time-based
arming raising, async_setup propagates the exception and NO other kind is
armed - the current-change, upcoming-change, sensor, webhook and
voice-satellite kinds are all prevented from arming, contradicting the
claimed per-kind isolation. -/
theorem c6_counterexample :
    async_setup allOnFlags armBoom = ([], some "boom")
    ∧ ¬ TriggerKind.currentChange ∈ (async_setup allOnFlags armBoom).1 := by
  refine ⟨rfl, by decide⟩

theorem armKinds_append_error (arm : TriggerKind → Except String Unit)
    (k : TriggerKind) (msg : String) (hk : arm k = Except.error msg) :
    ∀ pre post : List (Bool × TriggerKind),
      (∀ p ∈ pre, p.1 = true → arm p.2 = Except.ok ()) →
      armKinds arm (pre ++ (true, k) :: post) =
        ((pre.filter (fun p => p.1)).map (fun p => p.2), some msg) := by
  intro pre
  induction pre with
  | nil =>
    intro post _
    simp only [List.nil_append, List.filter_nil, List.map_nil]
    conv_lhs => unfold armKinds
    rw [if_pos rfl, hk]
  | cons p rest ih =>
    intro post hpre
    obtain ⟨flag, k2⟩ := p
    have hrest : ∀ q ∈ rest, q.1 = true → arm q.2 = Except.ok () :=
      fun q hq => hpre q (List.mem_cons_of_mem _ hq)
    cases flag
    · have step : armKinds arm ((false, k2) :: (rest ++ (true, k) :: post)) =
          armKinds arm (rest ++ (true, k) :: post) := by
        conv_lhs => unfold armKinds
        rw [if_neg (by simp)]
      simp only [List.cons_append]
      rw [step, ih post hrest]
      simp [List.filter_cons]
    · have hok : arm k2 = Except.ok () :=
        hpre (true, k2) (List.mem_cons_self (true, k2) rest) rfl
      have step : armKinds arm ((true, k2) :: (rest ++ (true, k) :: post)) =
          (k2 :: (armKinds arm (rest ++ (true, k) :: post)).1,
            (armKinds arm (rest ++ (true, k) :: post)).2) := by
        conv_lhs => unfold armKinds
        rw [if_pos rfl, hok]
      simp only [List.cons_append]
      rw [step, ih post hrest]
      simp [List.filter_cons]

/-- C6 amended: async_setup has no per-kind exception handling; whenever
the top-level flag is on and the fixed arming order splits as
pre ++ (enabled kind k) :: post with every enabled kind of pre arming fine
and the arming of k raising, the exception propagates out of async_setup,
the armed kinds are exactly the enabled kinds of pre (kinds earlier in the
order stay armed), every armed kind comes from pre, and every kind at or
after the failure that is not already in pre - in particular each kind in
post - is left unarmed. -/
theorem c6_setup_not_isolated (f : TTSFlags) (arm : TriggerKind → Except String Unit)
    (pre post : List (Bool × TriggerKind)) (k : TriggerKind) (msg : String)
    (henabled : f.enabled = true)
    (horder : enabledOrder f = pre ++ (true, k) :: post)
    (hpre : ∀ p ∈ pre, p.1 = true → arm p.2 = Except.ok ())
    (hboom : arm k = Except.error msg) :
    async_setup f arm = ((pre.filter (fun p => p.1)).map (fun p => p.2), some msg)
    ∧ (async_setup f arm).2 = some msg
    ∧ (∀ kd, kd ∈ (async_setup f arm).1 → kd ∈ pre.map (fun p => p.2))
    ∧ (∀ q ∈ post, ¬ q.2 ∈ pre.map (fun p => p.2) →
        ¬ q.2 ∈ (async_setup f arm).1) := by
  have hmain : async_setup f arm =
      ((pre.filter (fun p => p.1)).map (fun p => p.2), some msg) := by
    unfold async_setup
    rw [if_neg (by simp [henabled]), horder]
    exact armKinds_append_error arm k msg hboom pre post hpre
  have hsub : ∀ kd, kd ∈ (async_setup f arm).1 → kd ∈ pre.map (fun p => p.2) := by
    intro kd hkd
    rw [hmain] at hkd
    rcases List.mem_map.mp hkd with ⟨p, hpmem, hpeq⟩
    rw [← hpeq]
    exact List.mem_map_of_mem _ (List.mem_of_mem_filter hpmem)
  exact ⟨hmain, by rw [hmain], hsub, fun q _ hq hmem => hq (hsub q.2 hmem)⟩

/-- Witness for C6 (amended): arming fails on the current-change kind,
SECOND in the fixed order - the earlier time-based kind arms and stays
armed, the exception propagates, and the four later kinds are all left
unarmed. -/
theorem c6_setup_not_isolated_witness :
    (allOnFlags.enabled = true
      ∧ enabledOrder allOnFlags =
          [(true, TriggerKind.timeBased)] ++ (true, TriggerKind.currentChange) ::
            [(true, TriggerKind.upcomingChange), (true, TriggerKind.sensorTriggered),
             (true, TriggerKind.webhook), (true, TriggerKind.voiceSatellite)]
      ∧ armBoomMid TriggerKind.currentChange = Except.error "boom")
    ∧ async_setup allOnFlags armBoomMid = ([TriggerKind.timeBased], some "boom")
    ∧ ¬ TriggerKind.upcomingChange ∈ (async_setup allOnFlags armBoomMid).1 :=
  ⟨⟨rfl, rfl, rfl⟩,
   by
    have h := (c6_setup_not_isolated allOnFlags armBoomMid
      [(true, TriggerKind.timeBased)]
      [(true, TriggerKind.upcomingChange), (true, TriggerKind.sensorTriggered),
       (true, TriggerKind.webhook), (true, TriggerKind.voiceSatellite)]
      TriggerKind.currentChange "boom" rfl rfl
      (by
        intro p hp hflag
        fin_cases hp
        rfl)
      rfl).1
    simpa using h,
   by
    have h := (c6_setup_not_isolated allOnFlags armBoomMid
      [(true, TriggerKind.timeBased)]
      [(true, TriggerKind.upcomingChange), (true, TriggerKind.sensorTriggered),
       (true, TriggerKind.webhook), (true, TriggerKind.voiceSatellite)]
      TriggerKind.currentChange "boom" rfl rfl
      (by
        intro p hp hflag
        fin_cases hp
        rfl)
      rfl).2.2.2 (true, TriggerKind.upcomingChange) (by decide) (by decide)
    exact h⟩

/-! ### tts_triggers.TTSTriggerManager.async_unload (claim C8)

async_unload iterates _unsub_callbacks with a per-element try/except, then
clears the list, then iterates _registered_webhooks with a per-element
try/except, then clears that list.  A handle is modelled by an identifier
plus a flag telling whether its release raises. -/

theorem releaseAll_length (l : List (Nat × Bool)) : (releaseAll l).length = l.length := by
  induction l with
  | nil => rfl
  | cons p rest ih =>
    obtain ⟨h, raises⟩ := p
    simp [releaseAll, ih]

theorem unregisterAll_length (l : List (String × Bool)) :
    (unregisterAll l).length = l.length := by
  induction l with
  | nil => rfl
  | cons p rest ih =>
    obtain ⟨h, raises⟩ := p
    simp [unregisterAll, ih]

theorem mem_releaseAll (l : List (Nat × Bool)) (p : Nat × Bool) (hp : p ∈ l) :
    (if p.2 then UnloadEvent.releaseFailed p.1 else UnloadEvent.released p.1)
      ∈ releaseAll l := by
  induction l with
  | nil => cases hp
  | cons q rest ih =>
    obtain ⟨h, raises⟩ := q
    rcases List.mem_cons.mp hp with hq | hq
    · subst hq
      simp [releaseAll]
    · simp [releaseAll]
      right
      exact ih hq

theorem mem_unregisterAll (l : List (String × Bool)) (p : String × Bool) (hp : p ∈ l) :
    (if p.2 then UnloadEvent.unregisterFailed p.1 else UnloadEvent.unregistered p.1)
      ∈ unregisterAll l := by
  induction l with
  | nil => cases hp
  | cons q rest ih =>
    obtain ⟨h, raises⟩ := q
    rcases List.mem_cons.mp hp with hq | hq
    · subst hq
      simp [unregisterAll]
    · simp [unregisterAll]
      right
      exact ih hq

/-- C8: the first stop releases every armed subscription exactly once (one
event per handle, each handle's own release attempted even when another
release raises) and unregisters every webhook exactly once; the state is
cleared, so a second stop performs no additional releases and raises
nothing; and stop on a never-started manager (both lists empty) is a no-op
that raises nothing. -/
theorem c8_idempotent_unload (s : TriggerHandles) :
    ((async_unload s).1.length = s.unsubs.length + s.webhooks.length)
    ∧ (∀ p ∈ s.unsubs,
        (if p.2 then UnloadEvent.releaseFailed p.1 else UnloadEvent.released p.1)
          ∈ (async_unload s).1)
    ∧ (∀ p ∈ s.webhooks,
        (if p.2 then UnloadEvent.unregisterFailed p.1 else UnloadEvent.unregistered p.1)
          ∈ (async_unload s).1)
    ∧ (async_unload (async_unload s).2 = ([], {}))
    ∧ (async_unload {} = ([], {})) := by
  refine ⟨?_, ?_, ?_, rfl, rfl⟩
  · simp [async_unload, releaseAll_length, unregisterAll_length]
  · intro p hp
    simp only [async_unload, List.mem_append]
    exact Or.inl (mem_releaseAll s.unsubs p hp)
  · intro p hp
    simp only [async_unload, List.mem_append]
    exact Or.inr (mem_unregisterAll s.webhooks p hp)

/-- Witness for C8: two handles (the second raising on release) and one
webhook; every release appears once and the second unload is empty. -/
theorem c8_idempotent_unload_witness :
    ((async_unload { unsubs := [(1, false), (2, true)], webhooks := [("wh", false)] }).1.length
        = 2 + 1)
    ∧ UnloadEvent.releaseFailed 2
        ∈ (async_unload { unsubs := [(1, false), (2, true)], webhooks := [("wh", false)] }).1
    ∧ (async_unload
        (async_unload { unsubs := [(1, false), (2, true)], webhooks := [("wh", false)] }).2
        = ([], {})) :=
  ⟨(c8_idempotent_unload { unsubs := [(1, false), (2, true)], webhooks := [("wh", false)] }).1,
   by
    have h := (c8_idempotent_unload
      { unsubs := [(1, false), (2, true)], webhooks := [("wh", false)] }).2.1
      (2, true) (by decide)
    simpa using h,
   (c8_idempotent_unload { unsubs := [(1, false), (2, true)], webhooks := [("wh", false)] }).2.2.2.1⟩

/-! ### tts_triggers._check_upcoming_precip (claims C4 and C5)

Wall-clock values are modelled as PyDateTime: an integer minute count plus
Python's aware/naive distinction.  Comparing an aware with a naive datetime
raises TypeError (modelled as Except.error).  dt_util.now() is always
timezone-aware in Home Assistant, so now carries aware = true.  A forecast
entry's datetime field is the already-parsed result of
datetime.fromisoformat (none when the field is missing or unparseable).
The dedup key alert_key = h_time.strftime("%Y-%m-%d-%H") truncates the
wall time to the hour and DROPS the timezone, so
datetime.strptime(alert_key, "%Y-%m-%d-%H") in the cleanup step yields a
NAIVE datetime; keys are modelled as the wall-hour index (minutes
fdiv 60). -/

theorem precipLoop_cons (now windowEnd : PyDateTime) (th : Int) (fired : List Int)
    (e : HourEntry) (rest : List HourEntry) (t : PyDateTime) (hdt : e.dt = some t) :
    precipLoop now windowEnd th fired (e :: rest) =
      if e.precipitation_probability.getD 0 < th then
        precipLoop now windowEnd th fired rest
      else
        match pyLtDT now t with
        | Except.error _ => ([], fired, true)
        | Except.ok false => precipLoop now windowEnd th fired rest
        | Except.ok true =>
          match pyLeDT t windowEnd with
          | Except.error _ => ([], fired, true)
          | Except.ok false => precipLoop now windowEnd th fired rest
          | Except.ok true =>
            if fired.contains (entryKey t) then
              precipLoop now windowEnd th fired rest
            else
              ([PrecipEvent.announce (precipKindOf e) (t.minutes - now.minutes)
                  (e.precipitation_probability.getD 0)],
               entryKey t :: fired, false) := by
  conv_lhs => unfold precipLoop
  rw [hdt]

theorem precipLoop_cons_skip (now windowEnd : PyDateTime) (th : Int) (fired : List Int)
    (e : HourEntry) (rest : List HourEntry)
    (h : e.precipitation_probability.getD 0 < th ∨ e.dt = none) :
    precipLoop now windowEnd th fired (e :: rest) =
      precipLoop now windowEnd th fired rest := by
  conv_lhs => unfold precipLoop
  rcases h with h | h
  · rw [if_pos h]
  · rw [h]
    split <;> rfl

theorem precipLoop_find (nowM mb th : Int) (fired : List Int) :
    ∀ hourly : List HourEntry,
      (∀ e ∈ hourly, ∀ t, e.dt = some t → t.aware = true) →
      precipLoop { minutes := nowM, aware := true }
          { minutes := nowM + mb, aware := true } th fired hourly =
        (match hourly.find? (entryMatches nowM mb th fired) with
         | some e => ([announceOf nowM e], keyOf e :: fired, false)
         | none => ([], fired, false)) := by
  intro hourly
  induction hourly with
  | nil => intro _; rfl
  | cons e rest ih =>
    intro haware
    have hrest : ∀ e2 ∈ rest, ∀ t, e2.dt = some t → t.aware = true :=
      fun e2 h2 => haware e2 (List.mem_cons_of_mem _ h2)
    have ihr := ih hrest
    by_cases hprob : e.precipitation_probability.getD 0 < th
    · rw [precipLoop_cons_skip _ _ th fired e rest (Or.inl hprob), ihr,
        List.find?_cons_of_neg _ (by simp [entryMatches, not_le.mpr hprob])]
    · cases hdt : e.dt with
      | none =>
        rw [precipLoop_cons_skip _ _ th fired e rest (Or.inr hdt), ihr,
          List.find?_cons_of_neg _ (by simp [entryMatches, hdt])]
      | some t =>
        have ht : t.aware = true := haware e (List.mem_cons_self e rest) t hdt
        have hlt : pyLtDT { minutes := nowM, aware := true } t =
            Except.ok (decide (nowM < t.minutes)) := by
          unfold pyLtDT
          rw [if_pos (by simp [ht])]
        have hle : pyLeDT t { minutes := nowM + mb, aware := true } =
            Except.ok (decide (t.minutes ≤ nowM + mb)) := by
          unfold pyLeDT
          rw [if_pos (by simp [ht])]
        rw [precipLoop_cons _ _ th fired e rest t hdt, if_neg hprob]
        simp only [hlt, hle]
        by_cases h1 : nowM < t.minutes
        · simp only [decide_eq_true h1]
          by_cases h2 : t.minutes ≤ nowM + mb
          · simp only [decide_eq_true h2]
            by_cases h3 : fired.contains (entryKey t) = true
            · have h3m : entryKey t ∈ fired := by simpa using h3
              rw [if_pos h3, ihr, List.find?_cons_of_neg _
                (by simp [entryMatches, hdt, h3m])]
            · have h3n : entryKey t ∉ fired := by simpa using h3
              rw [if_neg h3]
              rw [List.find?_cons_of_pos _
                (by simp [entryMatches, hdt, h1, h2, h3n, not_lt.mp hprob])]
              simp [announceOf, keyOf, hdt]
          · rw [decide_eq_false h2, ihr, List.find?_cons_of_neg _
              (by simp [entryMatches, hdt, h2])]
        · rw [decide_eq_false h1, ihr, List.find?_cons_of_neg _
            (by simp [entryMatches, hdt, h1])]

/-- C5: on a poll with at least one configured media player and a current
condition that is not itself precipitating, provided every parseable
forecast time is timezone-aware, the announcements of the poll are exactly:
one for the FIRST hourly entry (in list order) whose probability meets the
threshold, whose time lies in (now, now + minutes_before], and whose dedup
key has not fired - none if no such entry exists - and never more than one
announcement per poll.  When the current condition is precipitating the
poll announces nothing and leaves the fired set unchanged. -/
theorem c5_first_match_fires (mps : List MediaPlayer) (cur : CurrentState)
    (hourly : List HourEntry) (nowM mb th : Int) (fired : List Int) :
    (mps.isEmpty = false → isPrecipitating cur = false →
      (∀ e ∈ hourly, ∀ t, e.dt = some t → t.aware = true) →
      ((check_upcoming_precip mps cur hourly nowM mb th fired).events =
          (match hourly.find? (entryMatches nowM mb th fired) with
           | some e => [announceOf nowM e]
           | none => [])
        ∧ (check_upcoming_precip mps cur hourly nowM mb th fired).events.length ≤ 1))
    ∧ (isPrecipitating cur = true →
        check_upcoming_precip mps cur hourly nowM mb th fired =
          { events := [], fired := fired, typeErr := false }) := by
  constructor
  · intro hmps hcur haware
    have hloop := precipLoop_find nowM mb th fired hourly haware
    have hev : (check_upcoming_precip mps cur hourly nowM mb th fired).events =
        (match hourly.find? (entryMatches nowM mb th fired) with
         | some e => [announceOf nowM e]
         | none => []) := by
      unfold check_upcoming_precip
      rw [if_neg (by simp [hmps]), if_neg (by simp [hcur])]
      cases hf : hourly.find? (entryMatches nowM mb th fired) with
      | none =>
        rw [hf] at hloop
        rw [hloop]
        show (match pruneFired { minutes := nowM, aware := true } fired with
              | Except.ok kept =>
                ({ events := [], fired := kept, typeErr := false } : PrecipResult)
              | Except.error _ =>
                { events := [], fired := fired, typeErr := true }).events = []
        cases pruneFired { minutes := nowM, aware := true } fired <;> rfl
      | some e =>
        rw [hf] at hloop
        rw [hloop]
        show (match pruneFired { minutes := nowM, aware := true } (keyOf e :: fired) with
              | Except.ok kept =>
                ({ events := [announceOf nowM e], fired := kept,
                   typeErr := false } : PrecipResult)
              | Except.error _ =>
                { events := [announceOf nowM e], fired := keyOf e :: fired,
                  typeErr := true }).events = [announceOf nowM e]
        cases pruneFired { minutes := nowM, aware := true } (keyOf e :: fired) <;> rfl
    refine ⟨hev, ?_⟩
    rw [hev]
    cases hourly.find? (entryMatches nowM mb th fired) <;> simp
  · intro hcur
    unfold check_upcoming_precip
    by_cases hmps : mps.isEmpty = true
    · rw [if_pos hmps]
    · rw [if_neg hmps, if_pos hcur]

/-- Witness for C5: one media player, clear current condition, two hourly
entries both above the threshold and inside the window; only the first
fires. -/
theorem c5_first_match_fires_witness :
    (([mpKitchen] : List MediaPlayer).isEmpty = false
      ∧ isPrecipitating { state := some "sunny" } = false)
    ∧ ((check_upcoming_precip [mpKitchen] { state := some "sunny" }
          [{ precipitation_probability := some 80,
             dt := some { minutes := 60010, aware := true },
             condition := some "rainy" },
           { precipitation_probability := some 90,
             dt := some { minutes := 60020, aware := true },
             condition := some "snowy" }] 60000 30 30 []).events =
        [PrecipEvent.announce "rainy" 10 80]
      ∧ (check_upcoming_precip [mpKitchen] { state := some "sunny" }
          [{ precipitation_probability := some 80,
             dt := some { minutes := 60010, aware := true },
             condition := some "rainy" },
           { precipitation_probability := some 90,
             dt := some { minutes := 60020, aware := true },
             condition := some "snowy" }] 60000 30 30 []).events.length ≤ 1) := by
  refine ⟨⟨by decide, by decide⟩, ?_⟩
  have h := (c5_first_match_fires [mpKitchen] { state := some "sunny" }
    [{ precipitation_probability := some 80,
       dt := some { minutes := 60010, aware := true },
       condition := some "rainy" },
     { precipitation_probability := some 90,
       dt := some { minutes := 60020, aware := true },
       condition := some "snowy" }] 60000 30 30 []).1
    (by decide) (by decide)
    (by
      intro e he t hdt
      fin_cases he <;> (injection hdt with h; subst h; rfl))
  refine ⟨?_, h.2⟩
  rw [h.1]
  rfl

/-- C4 (code evidence): a poll whose fired set already holds a key from a
forecast hour now more than two hours in the past, with an aware now (as
dt_util.now() always is).  The claim - and the source comment "Clean up old
alerts (older than 2 hours)" - require the key to be purged; instead the
cleanup comparison of the naive strptime result with the aware cutoff
raises TypeError, the assignment never executes, and the stale key is
retained.  Key 1500 denotes wall hour 1500 (minute 90000), 10000 minutes
before now = 100000, far beyond the two-hour cutoff 99880. -/
theorem c4_prune_raises :
    check_upcoming_precip [mpKitchen] { state := some "sunny" } [] 100000 30 30 [1500]
      = { events := [], fired := [1500], typeErr := true }
    ∧ ((1500 : Int) * 60 < 100000 - 120) := by
  refine ⟨rfl, by decide⟩

end HomeWeather
